import Mathlib

/-
Verification of the invoice CRUD service (src/app/routes/invoices.py).

The relational store (tables clients, products, invoices, invoice_items)
is embedded as lists of rows; monetary values and tax rates are embedded
as exact rationals. Each endpoint handler becomes a pure function on the
store; a raised HTTPException becomes an `Except.error` carrying the
status code and detail string.
-/

set_option autoImplicit false

namespace InvoiceApp

/-- Row of the clients table (read-only for this service). -/
structure Client where
  id : Nat
  name : String
  address : String
  company_registration_no : String
  deriving Repr, DecidableEq

/-- Row of the products table (read-only for this service, except that other
routes of the repository may change name and price later). -/
structure Product where
  id : Nat
  name : String
  price : ℚ
  deriving Repr, DecidableEq

/-- Row of the invoices table: columns inserted by create_invoice plus the
created_at column used by the list query's ORDER BY. -/
structure InvoiceRow where
  id : Nat
  invoice_no : String
  issue_date : String
  due_date : String
  client_id : Nat
  tax : ℚ
  total : ℚ
  created_at : Nat
  deriving Repr, DecidableEq

/-- Row of the invoice_items table. -/
structure InvoiceItemRow where
  id : Nat
  invoice_id : Nat
  product_id : Nat
  quantity : Nat
  unit_price : ℚ
  deriving Repr, DecidableEq

/-- The relational store, with the autoincrement counters of the invoices and
invoice_items tables and the clock that stamps created_at.

Modelled from the spec: the schema (not under src/) gives invoices a
created_at column filled at insertion time; it is embedded as a
monotonically increasing counter `next_ts` stamped on each inserted row. -/
structure Store where
  clients : List Client
  products : List Product
  invoices : List InvoiceRow
  invoice_items : List InvoiceItemRow
  next_invoice_id : Nat
  next_item_id : Nat
  next_ts : Nat
  deriving Repr, DecidableEq

/-- An HTTPException: status code and detail string. -/
structure ApiError where
  status : Nat
  detail : String
  deriving Repr, DecidableEq

/-- Request body item: product_id and quantity (pydantic enforces quantity > 0). -/
structure InvoiceItem where
  product_id : Nat
  quantity : Nat
  deriving Repr, DecidableEq

/-- Request body of POST /invoices (pydantic enforces tax >= 0). -/
structure InvoiceCreate where
  invoice_no : String
  issue_date : String
  due_date : String
  client_id : Nat
  items : List InvoiceItem
  tax : ℚ
  deriving Repr, DecidableEq

/-- Response item of the invoice view. -/
structure InvoiceItemResponse where
  id : Nat
  product_id : Nat
  product_name : String
  quantity : Nat
  unit_price : ℚ
  subtotal : ℚ
  deriving Repr, DecidableEq

/-- Client part of the invoice view. -/
structure ClientResponse where
  id : Nat
  name : String
  address : String
  company_registration_no : String
  deriving Repr, DecidableEq

/-- Response body of GET /invoices/id and POST /invoices. -/
structure InvoiceResponse where
  id : Nat
  invoice_no : String
  issue_date : String
  due_date : String
  client : ClientResponse
  items : List InvoiceItemResponse
  tax : ℚ
  subtotal : ℚ
  tax_amount : ℚ
  total : ℚ
  deriving Repr, DecidableEq

/-- One element of the GET /invoices listing. -/
structure InvoiceListItem where
  id : Nat
  invoice_no : String
  issue_date : String
  due_date : String
  client_name : String
  total : ℚ
  deriving Repr, DecidableEq

/-- SELECT id, ... FROM clients WHERE id = ? -/
def findClient (s : Store) (cid : Nat) : Option Client :=
  s.clients.find? (fun c => c.id == cid)

/-- SELECT id, name, price FROM products WHERE id = ? -/
def findProduct (s : Store) (pid : Nat) : Option Product :=
  s.products.find? (fun p => p.id == pid)

/-- SELECT ... FROM invoices WHERE id = ? -/
def findInvoice (s : Store) (iid : Nat) : Option InvoiceRow :=
  s.invoices.find? (fun r => r.id == iid)

/-- The 404 raised when the client referenced by a create request is missing. -/
def clientNotFoundError (cid : Nat) : ApiError :=
  { status := 404, detail := "Client with id " ++ toString cid ++ " not found" }

/-- The 400 raised when the invoice_no of a create request already exists. -/
def duplicateInvoiceNoError (no : String) : ApiError :=
  { status := 400, detail := "Invoice number " ++ no ++ " already exists" }

/-- The 404 raised when an item of a create request references a missing product. -/
def productNotFoundError (pid : Nat) : ApiError :=
  { status := 404, detail := "Product with id " ++ toString pid ++ " not found" }

/-- The 404 raised by get_invoice and delete_invoice on a missing invoice id. -/
def invoiceNotFoundError : ApiError :=
  { status := 404, detail := "Invoice not found" }

/-- The validation loop of create_invoice: per item, in input order, look the
product up (404 on the first miss) and accumulate price * quantity. -/
def computeSubtotal (s : Store) : List InvoiceItem → Except ApiError ℚ
  | [] => .ok 0
  | item :: rest =>
    match findProduct s item.product_id with
    | none => .error (productNotFoundError item.product_id)
    | some product =>
      match computeSubtotal s rest with
      | .error e => .error e
      | .ok sub => .ok (product.price * (item.quantity : ℚ) + sub)

/-- The item-insertion loop of create_invoice: each item row snapshots the
product's current price; ids come from the autoincrement counter. (The
lookup cannot miss here, since create_invoice runs it only after every
product was validated in the same transaction; a miss is skipped to keep
the function total.) -/
def insertedItems (s : Store) (invId : Nat) : Nat → List InvoiceItem → List InvoiceItemRow
  | _, [] => []
  | nextId, item :: rest =>
    match findProduct s item.product_id with
    | none => insertedItems s invId nextId rest
    | some product =>
      { id := nextId, invoice_id := invId, product_id := item.product_id,
        quantity := item.quantity, unit_price := product.price }
        :: insertedItems s invId (nextId + 1) rest

/-- The invoice row inserted by create_invoice: total is stored as
subtotal + subtotal * (tax / 100). -/
def mkRow (s : Store) (invoice : InvoiceCreate) (subtotal : ℚ) : InvoiceRow :=
  { id := s.next_invoice_id, invoice_no := invoice.invoice_no,
    issue_date := invoice.issue_date, due_date := invoice.due_date,
    client_id := invoice.client_id, tax := invoice.tax,
    total := subtotal + subtotal * (invoice.tax / 100),
    created_at := s.next_ts }

/-- The store after the INSERTs of a successful create_invoice. -/
def createdStore (s : Store) (invoice : InvoiceCreate) (subtotal : ℚ) : Store :=
  let newItems := insertedItems s s.next_invoice_id s.next_item_id invoice.items
  { s with invoices := s.invoices ++ [mkRow s invoice subtotal],
           invoice_items := s.invoice_items ++ newItems,
           next_invoice_id := s.next_invoice_id + 1,
           next_item_id := s.next_item_id + newItems.length,
           next_ts := s.next_ts + 1 }

/-- The JOIN of one invoice_items row with products: present only while the
product row still exists; product_name is the product's current name,
unit_price the stored snapshot, subtotal recomputed as
unit_price * quantity. -/
def joinItem (s : Store) (ii : InvoiceItemRow) : Option InvoiceItemResponse :=
  (findProduct s ii.product_id).map (fun product =>
    { id := ii.id, product_id := ii.product_id, product_name := product.name,
      quantity := ii.quantity, unit_price := ii.unit_price,
      subtotal := ii.unit_price * (ii.quantity : ℚ) })

/-- The items query of get_invoice: the invoice's item rows joined with products. -/
def buildItems (s : Store) (invoice_id : Nat) : List InvoiceItemResponse :=
  (s.invoice_items.filter (fun ii => ii.invoice_id == invoice_id)).filterMap
    (joinItem s)

/-- GET /invoices/invoice_id. The main SELECT joins invoices with clients, so a
missing client row also yields the 404; subtotal and tax_amount are
recomputed from the item rows and the stored tax rate, while total is the
stored column. -/
def get_invoice (s : Store) (invoice_id : Nat) : Except ApiError InvoiceResponse :=
  match findInvoice s invoice_id with
  | none => .error invoiceNotFoundError
  | some row =>
    match findClient s row.client_id with
    | none => .error invoiceNotFoundError
    | some c =>
      .ok { id := row.id, invoice_no := row.invoice_no,
            issue_date := row.issue_date, due_date := row.due_date,
            client := { id := c.id, name := c.name, address := c.address,
                        company_registration_no := c.company_registration_no },
            items := buildItems s invoice_id, tax := row.tax,
            subtotal := ((buildItems s invoice_id).map (fun it => it.subtotal)).sum,
            tax_amount := ((buildItems s invoice_id).map (fun it => it.subtotal)).sum
              * (row.tax / 100),
            total := row.total }

/-- POST /invoices: validate the client, the invoice_no, and every item's
product in input order; compute the totals; insert the invoice row and the
item rows; answer with get_invoice on the new id. -/
def create_invoice (s : Store) (invoice : InvoiceCreate) :
    Except ApiError (Store × InvoiceResponse) :=
  match findClient s invoice.client_id with
  | none => .error (clientNotFoundError invoice.client_id)
  | some _ =>
    match s.invoices.find? (fun r => r.invoice_no == invoice.invoice_no) with
    | some _ => .error (duplicateInvoiceNoError invoice.invoice_no)
    | none =>
      match computeSubtotal s invoice.items with
      | .error e => .error e
      | .ok subtotal =>
        (get_invoice (createdStore s invoice subtotal) s.next_invoice_id).map
          (fun resp => (createdStore s invoice subtotal, resp))

/-- Insertion step of ORDER BY created_at DESC. -/
def insertDesc (r : InvoiceRow) : List InvoiceRow → List InvoiceRow
  | [] => [r]
  | x :: xs => if x.created_at < r.created_at then r :: x :: xs else x :: insertDesc r xs

/-- ORDER BY created_at DESC as an insertion sort. -/
def sortByCreatedDesc : List InvoiceRow → List InvoiceRow
  | [] => []
  | x :: xs => insertDesc x (sortByCreatedDesc xs)

/-- GET /invoices: every invoice joined with its client, most recent first. -/
def list_invoices (s : Store) : List InvoiceListItem :=
  (sortByCreatedDesc s.invoices).filterMap (fun r =>
    (findClient s r.client_id).map (fun c =>
      { id := r.id, invoice_no := r.invoice_no, issue_date := r.issue_date,
        due_date := r.due_date, client_name := c.name, total := r.total }))

/-- DELETE /invoices/invoice_id: 404 when the id is absent, otherwise delete
the invoice's item rows and then the invoice row. -/
def delete_invoice (s : Store) (invoice_id : Nat) : Except ApiError Store :=
  match findInvoice s invoice_id with
  | none => .error invoiceNotFoundError
  | some _ =>
    .ok { s with
          invoice_items := s.invoice_items.filter (fun ii => ii.invoice_id != invoice_id),
          invoices := s.invoices.filter (fun r => r.id != invoice_id) }

/-- Modelled from the spec: the products routes (not under src/) let a
product's name and price change after invoice creation; the update replaces
the matching product row and touches nothing else. -/
def updateProduct (s : Store) (pid : Nat) (newName : String) (newPrice : ℚ) : Store :=
  { s with products := s.products.map (fun p =>
      if p.id == pid then { p with name := newName, price := newPrice } else p) }

/-- Store well-formedness: ids already issued are below the autoincrement
counters and timestamps are below the clock. Every store reachable through
the service from an empty invoices table satisfies it. -/
def Store.WF (s : Store) : Prop :=
  (∀ r ∈ s.invoices, r.id < s.next_invoice_id) ∧
  (∀ r ∈ s.invoices, r.created_at < s.next_ts) ∧
  (∀ ii ∈ s.invoice_items, ii.invoice_id < s.next_invoice_id)

/-- Projection of a full invoice view onto the listing row shape: the fields
of the view that the list endpoint reports. -/
def summaryOf (r : InvoiceResponse) : InvoiceListItem :=
  { id := r.id, invoice_no := r.invoice_no, issue_date := r.issue_date,
    due_date := r.due_date, client_name := r.client.name, total := r.total }

/-- Effect of a later product update on an already built item view: only the
displayed product_name follows the update; the numeric fields are the stored
snapshot. -/
def renameItem (pid : Nat) (newName : String) (it : InvoiceItemResponse) :
    InvoiceItemResponse :=
  if it.product_id == pid then { it with product_name := newName } else it

/-! ### Concrete stores and requests used for evaluation -/

/-- A store with no rows at all. -/
def emptyStore : Store :=
  { clients := [], products := [], invoices := [], invoice_items := [],
    next_invoice_id := 1, next_item_id := 1, next_ts := 0 }

/-- A placeholder invoice view (used only as the default of the projections
below). -/
def emptyResp : InvoiceResponse :=
  { id := 0, invoice_no := "", issue_date := "", due_date := "",
    client := { id := 0, name := "", address := "", company_registration_no := "" },
    items := [], tax := 0, subtotal := 0, tax_amount := 0, total := 0 }

/-- The store component of a successful create result. -/
def outStore (e : Except ApiError (Store × InvoiceResponse)) : Store :=
  match e with
  | .ok p => p.1
  | .error _ => emptyStore

/-- The response component of a successful create result. -/
def outResp (e : Except ApiError (Store × InvoiceResponse)) : InvoiceResponse :=
  match e with
  | .ok p => p.2
  | .error _ => emptyResp

/-- The response of a successful get result. -/
def outView (e : Except ApiError InvoiceResponse) : InvoiceResponse :=
  match e with
  | .ok r => r
  | .error _ => emptyResp

/-- The store of a successful delete result. -/
def outDeleted (e : Except ApiError Store) : Store :=
  match e with
  | .ok s => s
  | .error _ => emptyStore

/-- The worked example of the spec: one client and one product. -/
def baseStore : Store :=
  { clients := [{ id := 1, name := "Acme", address := "1 Road",
                  company_registration_no := "REG-1" }],
    products := [{ id := 1, name := "Widget", price := 10 }],
    invoices := [], invoice_items := [],
    next_invoice_id := 1, next_item_id := 1, next_ts := 0 }

/-- The spec's example request: 3 Widgets at 10 with 10 percent tax. -/
def req1 : InvoiceCreate :=
  { invoice_no := "INV-1", issue_date := "2024-01-01", due_date := "2024-01-31",
    client_id := 1, items := [{ product_id := 1, quantity := 3 }], tax := 10 }

/-- A request whose client does not exist in baseStore. -/
def reqUnknownClient : InvoiceCreate :=
  { invoice_no := "INV-9", issue_date := "2024-01-01", due_date := "2024-01-31",
    client_id := 99, items := [], tax := 0 }

/-- A request whose second item references a product missing from baseStore. -/
def reqUnknownProduct : InvoiceCreate :=
  { invoice_no := "INV-9", issue_date := "2024-01-01", due_date := "2024-01-31",
    client_id := 1,
    items := [{ product_id := 1, quantity := 1 }, { product_id := 99, quantity := 2 }],
    tax := 0 }

/-- A request with no items at all. -/
def reqNoItems : InvoiceCreate :=
  { invoice_no := "INV-2", issue_date := "2024-02-01", due_date := "2024-02-28",
    client_id := 1, items := [], tax := 10 }

/-- Second request with a fresh invoice_no, for the listing scenario. -/
def reqB : InvoiceCreate :=
  { invoice_no := "INV-B", issue_date := "2024-03-01", due_date := "2024-03-31",
    client_id := 1, items := [{ product_id := 1, quantity := 2 }], tax := 0 }

/-- Third request with a fresh invoice_no, for the listing scenario. -/
def reqC : InvoiceCreate :=
  { invoice_no := "INV-C", issue_date := "2024-04-01", due_date := "2024-04-30",
    client_id := 1, items := [{ product_id := 1, quantity := 5 }], tax := 20 }

/-- baseStore after creating the spec's example invoice. -/
def storeAfter1 : Store := outStore (create_invoice baseStore req1)

/-- The row stored for the spec's example invoice. -/
def rowINV1 : InvoiceRow :=
  { id := 1, invoice_no := "INV-1", issue_date := "2024-01-01",
    due_date := "2024-01-31", client_id := 1, tax := 10, total := 33,
    created_at := 0 }

/-- A store whose stored total column (999) disagrees with the total recomputed
from the stored item rows (33): it separates the two readings of get. -/
def divergedStore : Store :=
  { clients := [{ id := 1, name := "Acme", address := "1 Road",
                  company_registration_no := "REG-1" }],
    products := [{ id := 1, name := "Widget", price := 10 }],
    invoices := [{ id := 1, invoice_no := "INV-1", issue_date := "2024-01-01",
                   due_date := "2024-01-31", client_id := 1, tax := 10,
                   total := 999, created_at := 0 }],
    invoice_items := [{ id := 1, invoice_id := 1, product_id := 1, quantity := 3,
                        unit_price := 10 }],
    next_invoice_id := 2, next_item_id := 2, next_ts := 1 }

/-- The client row of baseStore. -/
def acmeClient : Client :=
  { id := 1, name := "Acme", address := "1 Road", company_registration_no := "REG-1" }

/-- The invoice row found under req1's invoice_no in storeAfter1. -/
def dupRow : InvoiceRow :=
  (storeAfter1.invoices.find? (fun row => row.invoice_no == req1.invoice_no)).getD rowINV1

/-- The view returned when the spec's example invoice is created. -/
def respA : InvoiceResponse := outResp (create_invoice baseStore req1)

/-- storeAfter1 after also creating reqB. -/
def storeB : Store := outStore (create_invoice storeAfter1 reqB)

/-- The view returned when reqB is created on storeAfter1. -/
def respB : InvoiceResponse := outResp (create_invoice storeAfter1 reqB)

/-- storeB after also creating reqC. -/
def storeC : Store := outStore (create_invoice storeB reqC)

/-- The view returned when reqC is created on storeB. -/
def respC : InvoiceResponse := outResp (create_invoice storeB reqC)

/-- storeAfter1 after deleting invoice 1. -/
def storeDel : Store := outDeleted (delete_invoice storeAfter1 1)

/-! ### Basic lemmas about the embedded operations -/

@[simp]
theorem createdStore_clients (s : Store) (invoice : InvoiceCreate) (st : ℚ) :
    (createdStore s invoice st).clients = s.clients := rfl

@[simp]
theorem createdStore_products (s : Store) (invoice : InvoiceCreate) (st : ℚ) :
    (createdStore s invoice st).products = s.products := rfl

@[simp]
theorem createdStore_invoices (s : Store) (invoice : InvoiceCreate) (st : ℚ) :
    (createdStore s invoice st).invoices = s.invoices ++ [mkRow s invoice st] := rfl

@[simp]
theorem createdStore_invoice_items (s : Store) (invoice : InvoiceCreate) (st : ℚ) :
    (createdStore s invoice st).invoice_items =
      s.invoice_items ++ insertedItems s s.next_invoice_id s.next_item_id invoice.items := rfl

@[simp]
theorem createdStore_next_invoice_id (s : Store) (invoice : InvoiceCreate) (st : ℚ) :
    (createdStore s invoice st).next_invoice_id = s.next_invoice_id + 1 := rfl

@[simp]
theorem createdStore_next_ts (s : Store) (invoice : InvoiceCreate) (st : ℚ) :
    (createdStore s invoice st).next_ts = s.next_ts + 1 := rfl

@[simp]
theorem findClient_createdStore (s : Store) (invoice : InvoiceCreate) (st : ℚ) (cid : Nat) :
    findClient (createdStore s invoice st) cid = findClient s cid := rfl

@[simp]
theorem joinItem_createdStore (s : Store) (invoice : InvoiceCreate) (st : ℚ) :
    joinItem (createdStore s invoice st) = joinItem s := rfl

theorem findInvoice_some_id {s : Store} {iid : Nat} {r : InvoiceRow}
    (h : findInvoice s iid = some r) : r.id = iid := by
  unfold findInvoice at h
  simpa using List.find?_some h

theorem get_invoice_ok_id {s : Store} {iid : Nat} {resp : InvoiceResponse}
    (h : get_invoice s iid = .ok resp) : resp.id = iid := by
  unfold get_invoice at h
  split at h
  · simp at h
  · rename_i row hr
    split at h
    · simp at h
    · rename_i c hc
      rw [← Except.ok.inj h]
      exact findInvoice_some_id hr

theorem computeSubtotal_cons_none {s : Store} {item : InvoiceItem}
    (hp : findProduct s item.product_id = none) (rest : List InvoiceItem) :
    computeSubtotal s (item :: rest) = .error (productNotFoundError item.product_id) := by
  conv_lhs => unfold computeSubtotal
  rw [hp]

theorem computeSubtotal_cons_some {s : Store} {item : InvoiceItem} {p : Product}
    (hp : findProduct s item.product_id = some p) (rest : List InvoiceItem) :
    computeSubtotal s (item :: rest) =
      match computeSubtotal s rest with
      | .error e => .error e
      | .ok sub => .ok (p.price * (item.quantity : ℚ) + sub) := by
  conv_lhs => unfold computeSubtotal
  rw [hp]

theorem insertedItems_cons_none {s : Store} {item : InvoiceItem}
    (hp : findProduct s item.product_id = none) (invId nextId : Nat)
    (rest : List InvoiceItem) :
    insertedItems s invId nextId (item :: rest) = insertedItems s invId nextId rest := by
  conv_lhs => unfold insertedItems
  rw [hp]

theorem insertedItems_cons_some {s : Store} {item : InvoiceItem} {p : Product}
    (hp : findProduct s item.product_id = some p) (invId nextId : Nat)
    (rest : List InvoiceItem) :
    insertedItems s invId nextId (item :: rest) =
      { id := nextId, invoice_id := invId, product_id := item.product_id,
        quantity := item.quantity, unit_price := p.price }
        :: insertedItems s invId (nextId + 1) rest := by
  conv_lhs => unfold insertedItems
  rw [hp]

theorem find?_append_of_none {α : Type} (p : α → Bool) (l₁ l₂ : List α)
    (h : l₁.find? p = none) : (l₁ ++ l₂).find? p = l₂.find? p := by
  rw [List.find?_append, h]; rfl

theorem findInvoice_createdStore {s : Store} (hwf : s.WF) (invoice : InvoiceCreate) (st : ℚ) :
    findInvoice (createdStore s invoice st) s.next_invoice_id = some (mkRow s invoice st) := by
  unfold findInvoice
  rw [createdStore_invoices, find?_append_of_none]
  · simp [mkRow]
  · rw [List.find?_eq_none]
    intro r hr
    have := hwf.1 r hr
    simp
    omega

theorem insertedItems_invoice_id (s : Store) (invId : Nat) (items : List InvoiceItem) :
    ∀ nextId : Nat, ∀ row ∈ insertedItems s invId nextId items, row.invoice_id = invId := by
  induction items with
  | nil => intro nextId row h; simp [insertedItems] at h
  | cons item rest ih =>
    intro nextId row h
    cases hp : findProduct s item.product_id with
    | none =>
      rw [insertedItems_cons_none hp] at h
      exact ih nextId row h
    | some p =>
      rw [insertedItems_cons_some hp] at h
      rcases List.mem_cons.mp h with h1 | h2
      · rw [h1]
      · exact ih (nextId + 1) row h2

theorem insertedItems_join_sum (s : Store) (invId : Nat) (items : List InvoiceItem) :
    ∀ (nextId : Nat) (st : ℚ), computeSubtotal s items = .ok st →
      (((insertedItems s invId nextId items).filterMap (joinItem s)).map
        (fun it => it.subtotal)).sum = st := by
  induction items with
  | nil =>
    intro nextId st h
    unfold computeSubtotal at h
    have := Except.ok.inj h
    simp [insertedItems, this]
  | cons item rest ih =>
    intro nextId st h
    cases hp : findProduct s item.product_id with
    | none => rw [computeSubtotal_cons_none hp] at h; simp at h
    | some p =>
      rw [computeSubtotal_cons_some hp] at h
      cases hr : computeSubtotal s rest with
      | error e => rw [hr] at h; simp at h
      | ok sub =>
        rw [hr] at h
        have hst := Except.ok.inj h
        rw [insertedItems_cons_some hp]
        have hj : joinItem s
            { id := nextId, invoice_id := invId, product_id := item.product_id,
              quantity := item.quantity, unit_price := p.price } =
            some { id := nextId, product_id := item.product_id, product_name := p.name,
                   quantity := item.quantity, unit_price := p.price,
                   subtotal := p.price * (item.quantity : ℚ) } := by
          unfold joinItem
          dsimp only
          rw [hp]
          rfl
        rw [List.filterMap_cons_some hj, List.map_cons, List.sum_cons,
          ih (nextId + 1) sub hr, ← hst]

theorem mem_join_subtotal (s : Store) (l : List InvoiceItemRow) :
    ∀ it ∈ l.filterMap (joinItem s), it.subtotal = it.unit_price * (it.quantity : ℚ) := by
  intro it h
  rcases List.mem_filterMap.mp h with ⟨ii, _, hj⟩
  unfold joinItem at hj
  cases hp : findProduct s ii.product_id with
  | none => rw [hp] at hj; simp at hj
  | some p =>
    rw [hp] at hj
    have := Option.some.inj hj
    rw [← this]

theorem buildItems_createdStore {s : Store} (hwf : s.WF) (invoice : InvoiceCreate) (st : ℚ) :
    buildItems (createdStore s invoice st) s.next_invoice_id =
      (insertedItems s s.next_invoice_id s.next_item_id invoice.items).filterMap
        (joinItem s) := by
  unfold buildItems
  rw [createdStore_invoice_items, List.filter_append, joinItem_createdStore]
  have h1 : s.invoice_items.filter (fun ii => ii.invoice_id == s.next_invoice_id) = [] := by
    rw [List.filter_eq_nil_iff]
    intro ii hi
    have := hwf.2.2 ii hi
    simp
    omega
  have h2 : (insertedItems s s.next_invoice_id s.next_item_id invoice.items).filter
      (fun ii => ii.invoice_id == s.next_invoice_id) =
      insertedItems s s.next_invoice_id s.next_item_id invoice.items := by
    rw [List.filter_eq_self]
    intro ii hi
    have := insertedItems_invoice_id s s.next_invoice_id invoice.items s.next_item_id ii hi
    simp [this]
  rw [h1, h2, List.nil_append]

theorem get_invoice_createdStore {s : Store} {invoice : InvoiceCreate} {st : ℚ} {c : Client}
    (hwf : s.WF) (hc : findClient s invoice.client_id = some c)
    (hsub : computeSubtotal s invoice.items = .ok st) :
    get_invoice (createdStore s invoice st) s.next_invoice_id =
      .ok { id := s.next_invoice_id, invoice_no := invoice.invoice_no,
            issue_date := invoice.issue_date, due_date := invoice.due_date,
            client := { id := c.id, name := c.name, address := c.address,
                        company_registration_no := c.company_registration_no },
            items := (insertedItems s s.next_invoice_id s.next_item_id
              invoice.items).filterMap (joinItem s),
            tax := invoice.tax, subtotal := st,
            tax_amount := st * (invoice.tax / 100),
            total := st + st * (invoice.tax / 100) } := by
  conv_lhs => unfold get_invoice
  rw [findInvoice_createdStore hwf invoice st]
  dsimp only
  have hc' : findClient (createdStore s invoice st) (mkRow s invoice st).client_id = some c := by
    rw [findClient_createdStore]
    exact hc
  rw [hc']
  dsimp only
  rw [buildItems_createdStore hwf invoice st,
    insertedItems_join_sum s s.next_invoice_id invoice.items s.next_item_id st hsub]
  rfl

theorem create_invoice_ok_inv {s : Store} {invoice : InvoiceCreate} {s' : Store}
    {resp : InvoiceResponse} (h : create_invoice s invoice = .ok (s', resp)) :
    ∃ c st, findClient s invoice.client_id = some c ∧
      s.invoices.find? (fun r => r.invoice_no == invoice.invoice_no) = none ∧
      computeSubtotal s invoice.items = .ok st ∧
      s' = createdStore s invoice st ∧
      get_invoice (createdStore s invoice st) s.next_invoice_id = .ok resp := by
  unfold create_invoice at h
  split at h
  · simp at h
  · rename_i c hc
    split at h
    · simp at h
    · rename_i hd
      split at h
      · simp at h
      · rename_i st hs
        cases hg : get_invoice (createdStore s invoice st) s.next_invoice_id with
        | error e => rw [hg] at h; simp [Except.map] at h
        | ok r =>
          rw [hg] at h
          simp only [Except.map] at h
          have h2 := Prod.ext_iff.mp (Except.ok.inj h)
          exact ⟨c, st, hc, hd, hs, h2.1.symm, hg.trans (congrArg Except.ok h2.2)⟩

theorem WF_createdStore {s : Store} (hwf : s.WF) (invoice : InvoiceCreate) (st : ℚ) :
    (createdStore s invoice st).WF := by
  refine ⟨?_, ?_, ?_⟩
  · intro r hr
    rw [createdStore_invoices] at hr
    rw [createdStore_next_invoice_id]
    rcases List.mem_append.mp hr with h1 | h2
    · have := hwf.1 r h1
      omega
    · rw [List.mem_singleton.mp h2]
      simp [mkRow]
  · intro r hr
    rw [createdStore_invoices] at hr
    rw [createdStore_next_ts]
    rcases List.mem_append.mp hr with h1 | h2
    · have := hwf.2.1 r h1
      omega
    · rw [List.mem_singleton.mp h2]
      simp [mkRow]
  · intro ii hi
    rw [createdStore_invoice_items] at hi
    rw [createdStore_next_invoice_id]
    rcases List.mem_append.mp hi with h1 | h2
    · have := hwf.2.2 ii h1
      omega
    · have := insertedItems_invoice_id s s.next_invoice_id invoice.items s.next_item_id ii h2
      omega

theorem create_invoice_ok_resp {s : Store} {invoice : InvoiceCreate} {s' : Store}
    {resp : InvoiceResponse} (hwf : s.WF) (h : create_invoice s invoice = .ok (s', resp)) :
    ∃ c st, findClient s invoice.client_id = some c ∧
      s.invoices.find? (fun r => r.invoice_no == invoice.invoice_no) = none ∧
      computeSubtotal s invoice.items = .ok st ∧
      s' = createdStore s invoice st ∧
      resp = { id := s.next_invoice_id, invoice_no := invoice.invoice_no,
               issue_date := invoice.issue_date, due_date := invoice.due_date,
               client := { id := c.id, name := c.name, address := c.address,
                           company_registration_no := c.company_registration_no },
               items := (insertedItems s s.next_invoice_id s.next_item_id
                 invoice.items).filterMap (joinItem s),
               tax := invoice.tax, subtotal := st,
               tax_amount := st * (invoice.tax / 100),
               total := st + st * (invoice.tax / 100) } := by
  obtain ⟨c, st, hc, hd, hs, hs', hg⟩ := create_invoice_ok_inv h
  rw [get_invoice_createdStore hwf hc hs] at hg
  exact ⟨c, st, hc, hd, hs, hs', (Except.ok.inj hg).symm⟩

theorem get_invoice_of_create_ok {s : Store} {invoice : InvoiceCreate} {s' : Store}
    {resp : InvoiceResponse} (h : create_invoice s invoice = .ok (s', resp)) :
    get_invoice s' resp.id = .ok resp := by
  obtain ⟨c, st, hc, hd, hs, hs', hg⟩ := create_invoice_ok_inv h
  have hid : resp.id = s.next_invoice_id := get_invoice_ok_id hg
  rw [hs', hid]
  exact hg

theorem computeSubtotal_first_missing (s : Store) (pre : List InvoiceItem)
    (bad : InvoiceItem) (rest : List InvoiceItem)
    (hpre : ∀ it ∈ pre, (findProduct s it.product_id).isSome)
    (hbad : findProduct s bad.product_id = none) :
    computeSubtotal s (pre ++ bad :: rest) = .error (productNotFoundError bad.product_id) := by
  induction pre with
  | nil =>
    rw [List.nil_append]
    exact computeSubtotal_cons_none hbad rest
  | cons item pre' ih =>
    have h1 : (findProduct s item.product_id).isSome := hpre item (List.mem_cons_self item pre')
    cases hp : findProduct s item.product_id with
    | none => rw [hp] at h1; simp at h1
    | some p =>
      rw [List.cons_append, computeSubtotal_cons_some hp,
        ih (fun it hit => hpre it (List.mem_cons_of_mem item hit))]

/-! ### Claims -/

/-- C2: a create request whose client_id does not reference an existing client
fails with the 404 client-not-found error. In this state-passing embedding an
`Except.error` result carries no store at all, so no invoice row and no item
rows are persisted: the caller's store is untouched. -/
theorem create_invoice_unknown_client (s : Store) (invoice : InvoiceCreate)
    (h : findClient s invoice.client_id = none) :
    create_invoice s invoice = .error (clientNotFoundError invoice.client_id) := by
  conv_lhs => unfold create_invoice
  rw [h]

/-- C3: a create request whose invoice_no already exists (while its client_id
does exist) fails with the 400 duplicate-invoice_no error; the error result
carries no store, so the store is unchanged. -/
theorem create_invoice_duplicate_no (s : Store) (invoice : InvoiceCreate) (c : Client)
    (r : InvoiceRow) (hc : findClient s invoice.client_id = some c)
    (hr : s.invoices.find? (fun row => row.invoice_no == invoice.invoice_no) = some r) :
    create_invoice s invoice = .error (duplicateInvoiceNoError invoice.invoice_no) := by
  conv_lhs => unfold create_invoice
  rw [hc]
  dsimp only
  rw [hr]

/-- C4: when the client and invoice_no checks pass and the items contain a
missing product, create fails with the 404 naming the first missing product in
input order (`bad`, every item before it referencing an existing product); the
error result carries no store, so no invoice row or item rows persist. -/
theorem create_invoice_missing_product (s : Store) (invoice : InvoiceCreate) (c : Client)
    (pre : List InvoiceItem) (bad : InvoiceItem) (rest : List InvoiceItem)
    (hc : findClient s invoice.client_id = some c)
    (hno : s.invoices.find? (fun r => r.invoice_no == invoice.invoice_no) = none)
    (hitems : invoice.items = pre ++ bad :: rest)
    (hpre : ∀ it ∈ pre, (findProduct s it.product_id).isSome)
    (hbad : findProduct s bad.product_id = none) :
    create_invoice s invoice = .error (productNotFoundError bad.product_id) := by
  conv_lhs => unfold create_invoice
  rw [hc]
  dsimp only
  rw [hno]
  dsimp only
  rw [hitems, computeSubtotal_first_missing s pre bad rest hpre hbad]

/-- C5 (amended): for an invoice id present in the store, get recomputes the
response's subtotal from the stored item rows (unit_price * quantity each) and
tax_amount from that subtotal and the stored tax rate, while the response's
total is taken from the stored total column of the invoices row — not
recomputed. -/
theorem get_invoice_recomputes (s : Store) (iid : Nat) (resp : InvoiceResponse)
    (h : get_invoice s iid = .ok resp) :
    ∃ row, findInvoice s iid = some row ∧
      resp.items = buildItems s iid ∧
      resp.subtotal = ((buildItems s iid).map (fun it => it.subtotal)).sum ∧
      resp.tax_amount = resp.subtotal * (row.tax / 100) ∧
      resp.total = row.total := by
  unfold get_invoice at h
  split at h
  · simp at h
  · rename_i row hr
    split at h
    · simp at h
    · rename_i c hc
      refine ⟨row, hr, ?_, ?_, ?_, ?_⟩ <;> rw [← Except.ok.inj h]

/-- C5 counterexample: on divergedStore (stored total column 999, item rows
recomputing to 30 + 3 = 33 with the stored tax rate 10), get returns
subtotal 30 and tax_amount 3 recomputed from the items but total 999 straight
from the stored column — so the claim that the response's total is recomputed
from the stored item rows rather than taken from the stored total column is
false. -/
theorem get_invoice_total_from_stored_column :
    (outView (get_invoice divergedStore 1)).subtotal = 30
    ∧ (outView (get_invoice divergedStore 1)).tax_amount = 3
    ∧ (outView (get_invoice divergedStore 1)).total = 999
    ∧ (999 : ℚ) ≠ 30 * (1 + (10 : ℚ) / 100) := by
  refine ⟨?_, ?_, ?_, by norm_num⟩ <;>
    norm_num [outView, get_invoice, divergedStore, findInvoice, findClient, findProduct,
      buildItems, joinItem, List.find?, List.filterMap_cons, List.filterMap_nil]

/-- C6: for every successful creation, getting the new id returns exactly the
response that create returned — in particular the recomputed subtotal,
tax_amount and total of the get view equal the values returned at creation. -/
theorem get_after_create (s : Store) (invoice : InvoiceCreate) (s' : Store)
    (resp : InvoiceResponse) (hok : create_invoice s invoice = .ok (s', resp)) :
    get_invoice s' resp.id = .ok resp :=
  get_invoice_of_create_ok hok

/-- C8: delete of a missing id fails with the 404; a successful delete removes
every item row of the invoice and the invoice row itself, after which get and
a second delete of the same id both yield the 404. -/
theorem delete_invoice_spec (s : Store) (iid : Nat) :
    (findInvoice s iid = none → delete_invoice s iid = .error invoiceNotFoundError)
    ∧ (∀ s', delete_invoice s iid = .ok s' →
        (∀ ii ∈ s'.invoice_items, ii.invoice_id ≠ iid)
        ∧ (∀ r ∈ s'.invoices, r.id ≠ iid)
        ∧ get_invoice s' iid = .error invoiceNotFoundError
        ∧ delete_invoice s' iid = .error invoiceNotFoundError) := by
  constructor
  · intro h
    conv_lhs => unfold delete_invoice
    rw [h]
  · intro s' h
    unfold delete_invoice at h
    split at h
    · simp at h
    · rename_i row hr
      have hs' := (Except.ok.inj h).symm
      have hnone : findInvoice s' iid = none := by
        rw [hs']
        unfold findInvoice
        dsimp only
        rw [List.find?_eq_none]
        intro r hrr
        have h2 := (List.mem_filter.mp hrr).2
        simp only [bne_iff_ne, ne_eq] at h2
        simp [h2]
      refine ⟨?_, ?_, ?_, ?_⟩
      · intro ii hi
        rw [hs'] at hi
        dsimp only at hi
        have h2 := (List.mem_filter.mp hi).2
        simpa using h2
      · intro r hrr
        rw [hs'] at hrr
        dsimp only at hrr
        have h2 := (List.mem_filter.mp hrr).2
        simpa using h2
      · conv_lhs => unfold get_invoice
        rw [hnone]
      · conv_lhs => unfold delete_invoice
        rw [hnone]

/-- C1: for a valid create request — success encodes that the client exists,
the invoice_no is fresh and all products exist; quantities are positive and
tax nonnegative as the request model enforces — the returned view satisfies
total = (sum of quantity * unit_price over the items) * (1 + tax / 100), with
subtotal the sum of the item subtotals, tax_amount = subtotal * tax / 100 and
total = subtotal + tax_amount; the stored invoice row carries the same
total. -/
theorem create_invoice_total_correct (s : Store) (invoice : InvoiceCreate) (s' : Store)
    (resp : InvoiceResponse) (hwf : s.WF)
    (hq : ∀ it ∈ invoice.items, 0 < it.quantity) (htax : 0 ≤ invoice.tax)
    (hok : create_invoice s invoice = .ok (s', resp)) :
    resp.total = ((resp.items.map (fun it => (it.quantity : ℚ) * it.unit_price)).sum)
        * (1 + invoice.tax / 100)
    ∧ resp.subtotal = (resp.items.map (fun it => it.subtotal)).sum
    ∧ resp.tax_amount = resp.subtotal * (invoice.tax / 100)
    ∧ resp.total = resp.subtotal + resp.tax_amount
    ∧ ∃ row, findInvoice s' resp.id = some row ∧ row.total = resp.total := by
  obtain ⟨c, st, hc, hno, hs, hs', hresp⟩ := create_invoice_ok_resp hwf hok
  subst hs'
  subst hresp
  have hsum : (((insertedItems s s.next_invoice_id s.next_item_id
        invoice.items).filterMap (joinItem s)).map (fun it => it.subtotal)).sum = st :=
    insertedItems_join_sum s s.next_invoice_id invoice.items s.next_item_id st hs
  have hmap : ((insertedItems s s.next_invoice_id s.next_item_id
        invoice.items).filterMap (joinItem s)).map (fun it => (it.quantity : ℚ) * it.unit_price)
      = ((insertedItems s s.next_invoice_id s.next_item_id
        invoice.items).filterMap (joinItem s)).map (fun it => it.subtotal) := by
    apply List.map_congr_left
    intro it hit
    rw [mem_join_subtotal s _ it hit, mul_comm]
  refine ⟨?_, ?_, ?_, ?_, ?_⟩
  · dsimp only
    rw [hmap, hsum]
    ring
  · dsimp only
    rw [hsum]
  · rfl
  · rfl
  · exact ⟨mkRow s invoice st, findInvoice_createdStore hwf invoice st, rfl⟩

/-- C10: a create request with an empty items list, an existing client and a
fresh invoice_no succeeds for any tax, and the created view has no items and
subtotal, tax_amount and total all zero. -/
theorem create_invoice_empty_items (s : Store) (invoice : InvoiceCreate) (c : Client)
    (hwf : s.WF) (hc : findClient s invoice.client_id = some c)
    (hno : s.invoices.find? (fun r => r.invoice_no == invoice.invoice_no) = none)
    (hitems : invoice.items = []) (htax : 0 ≤ invoice.tax) :
    ∃ resp, create_invoice s invoice = .ok (createdStore s invoice 0, resp)
      ∧ resp.items = [] ∧ resp.subtotal = 0 ∧ resp.tax_amount = 0 ∧ resp.total = 0 := by
  have hs : computeSubtotal s invoice.items = .ok 0 := by
    rw [hitems]
    rfl
  have hget := get_invoice_createdStore (c := c) hwf hc hs
  refine ⟨{ id := s.next_invoice_id, invoice_no := invoice.invoice_no,
            issue_date := invoice.issue_date, due_date := invoice.due_date,
            client := { id := c.id, name := c.name, address := c.address,
                        company_registration_no := c.company_registration_no },
            items := (insertedItems s s.next_invoice_id s.next_item_id
              invoice.items).filterMap (joinItem s),
            tax := invoice.tax, subtotal := 0,
            tax_amount := 0 * (invoice.tax / 100),
            total := 0 + 0 * (invoice.tax / 100) }, ?_, ?_, ?_, ?_, ?_⟩
  · conv_lhs => unfold create_invoice
    rw [hc]
    dsimp only
    rw [hno]
    dsimp only
    rw [hs]
    dsimp only
    rw [hget]
    rfl
  · dsimp only
    rw [hitems]
    rfl
  · rfl
  · dsimp only
    ring
  · dsimp only
    ring

theorem findProduct_updateProduct (s : Store) (pid : Nat) (nm : String) (pr : ℚ)
    (q : Nat) :
    findProduct (updateProduct s pid nm pr) q =
      (findProduct s q).map
        (fun p => if p.id == pid then { p with name := nm, price := pr } else p) := by
  unfold findProduct updateProduct
  dsimp only
  rw [List.find?_map]
  have hcomp : ((fun x => x.id == q) ∘
      fun p => if p.id == pid then { p with name := nm, price := pr } else p)
      = (fun x : Product => x.id == q) := by
    funext p
    by_cases hp : p.id = pid <;> simp [hp]
  rw [hcomp]

theorem joinItem_updateProduct (s : Store) (pid : Nat) (nm : String) (pr : ℚ)
    (ii : InvoiceItemRow) :
    joinItem (updateProduct s pid nm pr) ii = (joinItem s ii).map (renameItem pid nm) := by
  unfold joinItem
  rw [findProduct_updateProduct]
  cases hp : findProduct s ii.product_id with
  | none => rfl
  | some p =>
    have hid : p.id = ii.product_id := by
      unfold findProduct at hp
      simpa using List.find?_some hp
    dsimp only [Option.map]
    unfold renameItem
    dsimp only
    rw [← hid]
    by_cases hcond : (p.id == pid) = true <;> simp [hcond]

theorem renameItem_subtotal (pid : Nat) (nm : String) (it : InvoiceItemResponse) :
    (renameItem pid nm it).subtotal = it.subtotal := by
  unfold renameItem
  split <;> rfl

theorem buildItems_updateProduct (s : Store) (pid : Nat) (nm : String) (pr : ℚ)
    (iid : Nat) :
    buildItems (updateProduct s pid nm pr) iid =
      (buildItems s iid).map (renameItem pid nm) := by
  unfold buildItems
  have h1 : (updateProduct s pid nm pr).invoice_items = s.invoice_items := rfl
  rw [h1, List.map_filterMap]
  congr 1
  funext ii
  exact joinItem_updateProduct s pid nm pr ii

theorem get_invoice_updateProduct (s : Store) (pid : Nat) (nm : String) (pr : ℚ)
    (iid : Nat) :
    get_invoice (updateProduct s pid nm pr) iid =
      (get_invoice s iid).map
        (fun r => { r with items := r.items.map (renameItem pid nm) }) := by
  have hfi : findInvoice (updateProduct s pid nm pr) iid = findInvoice s iid := rfl
  have hfc : ∀ cid, findClient (updateProduct s pid nm pr) cid = findClient s cid :=
    fun _ => rfl
  conv_lhs => unfold get_invoice
  conv_rhs => unfold get_invoice
  rw [hfi]
  cases hr : findInvoice s iid with
  | none => rfl
  | some row =>
    dsimp only
    rw [hfc]
    cases hc : findClient s row.client_id with
    | none => rfl
    | some c =>
      dsimp only [Except.map]
      have hsum : ((buildItems s iid).map (renameItem pid nm)).map (fun it => it.subtotal)
          = (buildItems s iid).map (fun it => it.subtotal) := by
        rw [List.map_map]
        apply List.map_congr_left
        intro it _
        exact renameItem_subtotal pid nm it
      rw [buildItems_updateProduct, hsum]

/-- C9: after any successful creation, a later change of a product's name and
price leaves the stored item rows (hence every snapshotted unit_price) and the
stored invoice rows (hence the stored total) unchanged, and get returns the
same view except that the displayed product_name of the updated product's
items follows the update — unit_price, item subtotals, subtotal, tax_amount
and total are those of the original view. -/
theorem unit_price_snapshot (s : Store) (invoice : InvoiceCreate) (s' : Store)
    (resp : InvoiceResponse) (pid : Nat) (newName : String) (newPrice : ℚ)
    (hok : create_invoice s invoice = .ok (s', resp)) :
    (updateProduct s' pid newName newPrice).invoice_items = s'.invoice_items
    ∧ (updateProduct s' pid newName newPrice).invoices = s'.invoices
    ∧ get_invoice (updateProduct s' pid newName newPrice) resp.id =
        .ok { resp with items := resp.items.map (renameItem pid newName) }
    ∧ (∀ it : InvoiceItemResponse,
        (renameItem pid newName it).unit_price = it.unit_price
        ∧ (renameItem pid newName it).quantity = it.quantity
        ∧ (renameItem pid newName it).subtotal = it.subtotal
        ∧ (it.product_id = pid → (renameItem pid newName it).product_name = newName)) := by
  refine ⟨rfl, rfl, ?_, ?_⟩
  · rw [get_invoice_updateProduct, get_invoice_of_create_ok hok]
    rfl
  · intro it
    refine ⟨?_, ?_, ?_, ?_⟩
    · unfold renameItem
      split <;> rfl
    · unfold renameItem
      split <;> rfl
    · exact renameItem_subtotal pid newName it
    · intro hpid
      unfold renameItem
      rw [hpid]
      simp

theorem sortByCreatedDesc_three {x y z : InvoiceRow}
    (hxy : x.created_at < y.created_at) (hyz : y.created_at < z.created_at) :
    sortByCreatedDesc [x, y, z] = [z, y, x] := by
  simp only [sortByCreatedDesc, insertDesc]
  rw [if_neg (show ¬ z.created_at < y.created_at by omega)]
  simp only [insertDesc]
  rw [if_neg (show ¬ z.created_at < x.created_at by omega),
    if_neg (show ¬ y.created_at < x.created_at by omega)]

/-- C7: starting from a store with no invoices, creating A then B then C makes
list return exactly one summary per stored invoice — id, invoice_no,
issue_date, due_date, client_name and total of each view — most recent first:
[C, B, A]; and a store with no invoices lists an empty sequence. -/
theorem list_invoices_ordering (s0 : Store) (a b c : InvoiceCreate)
    (s1 s2 s3 : Store) (ra rb rc : InvoiceResponse)
    (hwf : s0.WF) (hempty : s0.invoices = [])
    (ha : create_invoice s0 a = .ok (s1, ra))
    (hb : create_invoice s1 b = .ok (s2, rb))
    (hc : create_invoice s2 c = .ok (s3, rc)) :
    list_invoices s3 = [summaryOf rc, summaryOf rb, summaryOf ra]
    ∧ (∀ t : Store, t.invoices = [] → list_invoices t = []) := by
  obtain ⟨cA, stA, hcA, hnoA, hsA, hs1, hrespA⟩ := create_invoice_ok_resp hwf ha
  subst hs1
  obtain ⟨cB, stB, hcB, hnoB, hsB, hs2, hrespB⟩ :=
    create_invoice_ok_resp (WF_createdStore hwf a stA) hb
  subst hs2
  obtain ⟨cC, stC, hcC, hnoC, hsC, hs3, hrespC⟩ :=
    create_invoice_ok_resp (WF_createdStore (WF_createdStore hwf a stA) b stB) hc
  subst hs3
  subst hrespA
  subst hrespB
  subst hrespC
  constructor
  · unfold list_invoices
    simp only [createdStore_invoices, hempty, List.nil_append, List.cons_append]
    have h1 : (mkRow s0 a stA).created_at
        < (mkRow (createdStore s0 a stA) b stB).created_at := by
      simp only [mkRow, createdStore_next_ts]
      omega
    have h2 : (mkRow (createdStore s0 a stA) b stB).created_at
        < (mkRow (createdStore (createdStore s0 a stA) b stB) c stC).created_at := by
      simp only [mkRow, createdStore_next_ts]
      omega
    rw [sortByCreatedDesc_three h1 h2]
    simp only [findClient_createdStore] at hcA hcB hcC ⊢
    simp [List.filterMap_cons, List.filterMap_nil, mkRow, hcA, hcB, hcC, summaryOf]
  · intro t ht
    unfold list_invoices
    rw [ht]
    rfl

/-! ### Concrete witnesses -/

/-- Witness for C1 at the spec's worked example. -/
theorem create_invoice_total_correct_witness :
    respA.total = respA.subtotal + respA.tax_amount :=
  (create_invoice_total_correct baseStore req1 storeAfter1 respA
    (by unfold Store.WF; decide) (by decide) (by decide) rfl).2.2.2.1

/-- Witness for C2: creating with client_id 99 on baseStore. -/
theorem create_invoice_unknown_client_witness :
    findClient baseStore reqUnknownClient.client_id = none
    ∧ create_invoice baseStore reqUnknownClient = .error (clientNotFoundError 99) :=
  ⟨rfl, create_invoice_unknown_client baseStore reqUnknownClient rfl⟩

/-- Witness for C3: re-creating invoice_no INV-1 on storeAfter1. -/
theorem create_invoice_duplicate_no_witness :
    create_invoice storeAfter1 req1 = .error (duplicateInvoiceNoError "INV-1") :=
  create_invoice_duplicate_no storeAfter1 req1 acmeClient dupRow rfl rfl

/-- Witness for C4: an item referencing product 99 on baseStore. -/
theorem create_invoice_missing_product_witness :
    findProduct baseStore 99 = none
    ∧ create_invoice baseStore reqUnknownProduct = .error (productNotFoundError 99) :=
  ⟨rfl, create_invoice_missing_product baseStore reqUnknownProduct acmeClient
    [{ product_id := 1, quantity := 1 }] { product_id := 99, quantity := 2 } []
    rfl rfl rfl (by decide) rfl⟩

/-- Witness for C5 (amended) on divergedStore. -/
theorem get_invoice_recomputes_witness :
    ∃ row, findInvoice divergedStore 1 = some row
      ∧ (outView (get_invoice divergedStore 1)).items = buildItems divergedStore 1
      ∧ (outView (get_invoice divergedStore 1)).subtotal
          = ((buildItems divergedStore 1).map (fun it => it.subtotal)).sum
      ∧ (outView (get_invoice divergedStore 1)).tax_amount
          = (outView (get_invoice divergedStore 1)).subtotal * (row.tax / 100)
      ∧ (outView (get_invoice divergedStore 1)).total = row.total :=
  get_invoice_recomputes divergedStore 1 (outView (get_invoice divergedStore 1)) rfl

/-- Witness for C6 at the spec's worked example. -/
theorem get_after_create_witness :
    get_invoice storeAfter1 respA.id = .ok respA :=
  get_after_create baseStore req1 storeAfter1 respA rfl

/-- Witness for C7: creating req1, reqB, reqC from baseStore. -/
theorem list_invoices_ordering_witness :
    list_invoices storeC = [summaryOf respC, summaryOf respB, summaryOf respA] :=
  (list_invoices_ordering baseStore req1 reqB reqC storeAfter1 storeB storeC
    respA respB respC (by unfold Store.WF; decide) rfl rfl rfl rfl).1

/-- Witness for C8: deleting invoice 1 from storeAfter1. -/
theorem delete_invoice_spec_witness :
    get_invoice storeDel 1 = .error invoiceNotFoundError
    ∧ delete_invoice storeDel 1 = .error invoiceNotFoundError :=
  ⟨((delete_invoice_spec storeAfter1 1).2 storeDel rfl).2.2.1,
   ((delete_invoice_spec storeAfter1 1).2 storeDel rfl).2.2.2⟩

/-- Witness for C9: renaming and re-pricing product 1 after the example
creation. -/
theorem unit_price_snapshot_witness :
    get_invoice (updateProduct storeAfter1 1 "Gadget" 25) respA.id
      = .ok { respA with items := respA.items.map (renameItem 1 "Gadget") } :=
  (unit_price_snapshot baseStore req1 storeAfter1 respA 1 "Gadget" 25 rfl).2.2.1

/-- Witness for C10: creating reqNoItems (no items, tax 10) on baseStore. -/
theorem create_invoice_empty_items_witness :
    ∃ resp, create_invoice baseStore reqNoItems
        = .ok (createdStore baseStore reqNoItems 0, resp)
      ∧ resp.items = [] ∧ resp.subtotal = 0 ∧ resp.tax_amount = 0 ∧ resp.total = 0 :=
  create_invoice_empty_items baseStore reqNoItems acmeClient
    (by unfold Store.WF; decide) rfl rfl rfl (by decide)

end InvoiceApp
